import Mathlib

/-!
Verification of the customer-console repository's core logic:
the pagination window calculator (`getPages`), the fetch/validate
error-classification pipeline (`NetError` and the shared catch handler),
the form-submission validation gate, and the listing controller's
delete/pagination state behaviour.

Integers from the source (JavaScript numbers used only at integral values)
are embedded as `Int`; `Math.floor (x / 2)` is floor division, which for the
positive divisor 2 coincides with Lean's Euclidean `/` on `Int`.
`Array.from` with a length object clamps a negative length to 0, embedded
via `Int.toNat`.
-/

/-- Local `totalPageNumbers` of `getPages`:
`Math.min(maxVisiblePages, totalPages)`. -/
def totalPageNumbers (totalPages maxVisiblePages : Int) : Int :=
  min maxVisiblePages totalPages

/-- Local `halfWay` of `getPages`: `Math.floor(totalPageNumbers / 2)`. -/
def halfWay (totalPages maxVisiblePages : Int) : Int :=
  totalPageNumbers totalPages maxVisiblePages / 2

/-- Local `startPage` of `getPages`:
`Math.max(Math.min(currentPage - halfWay, totalPages - totalPageNumbers + 1), 1)`. -/
def startPage (currentPage totalPages maxVisiblePages : Int) : Int :=
  max (min (currentPage - halfWay totalPages maxVisiblePages)
        (totalPages - totalPageNumbers totalPages maxVisiblePages + 1))
    1

/-- Local `endPage` of `getPages`:
`Math.min(startPage + totalPageNumbers - 1, totalPages)`. -/
def endPage (currentPage totalPages maxVisiblePages : Int) : Int :=
  min (startPage currentPage totalPages maxVisiblePages
        + totalPageNumbers totalPages maxVisiblePages - 1)
    totalPages

/-- The pagination window calculator `getPages` (duplicated verbatim in the
listing pages): returns the contiguous run `startPage, ..., endPage` as an
array of length `endPage - startPage + 1` whose element `i` is
`startPage + i`. -/
def getPages (currentPage totalPages : Int) (maxVisiblePages : Int := 5) :
    List Int :=
  (List.range (endPage currentPage totalPages maxVisiblePages
      - startPage currentPage totalPages maxVisiblePages + 1).toNat).map
    (fun (i : Nat) => startPage currentPage totalPages maxVisiblePages + (i : Int))

/-- Error kinds of `NetError` (src/utils/net-error.ts). -/
inductive ErrorKind where
  | serverError
  | networkError
  | unknownError
  | validationError
deriving DecidableEq

/-- Values thrown through the request pipelines, as the shared catch handler
can observe them: an already-classified `NetError` (its kind, `message`, and
optional `inner` cause), a zod `ZodError` (carrying both its list of issue
messages and its own `message` string, two properties of the same thrown
object), a generic JS `Error` with its `message`, or a thrown non-Error
primitive (a string or a number), which has no `message` property.
`NetError`'s message is `Option String` because the constructor stores
whatever value the caller passes, including `undefined`. -/
inductive Thrown where
  | netErr (kind : ErrorKind) (message : Option String) (inner : Option Thrown)
  | zodErr (issues : List String) (message : String)
  | jsErr (message : String)
  | strVal (s : String)
  | numVal (n : Int)

/-- Property access `error.message` as the catch handler sees it:
`undefined` (here `none`) on thrown primitives, which have no `message`
property. -/
def Thrown.messageProp : Thrown → Option String
  | netErr _ m _ => m
  | zodErr _ m => some m
  | jsErr m => some m
  | strVal _ => none
  | numVal _ => none

/-- The catch handler duplicated verbatim in every request operation
(`fetchCustomerListing`, `fetchCustomer`, `registerCustomer`,
`updateCustomer`, `deleteCustomer`): rethrow a `NetError` unchanged; wrap a
`ZodError` as validation-error with the `ZodError`'s own `message` and the
error itself as cause; wrap any other `Error` as network-error with its
message; wrap a non-Error value as unknown-error with `error.message`
(which is `undefined` on primitives) and the raw value as cause. -/
def classifyError : Thrown → Thrown
  | Thrown.netErr k m i => Thrown.netErr k m i
  | Thrown.zodErr issues m =>
      Thrown.netErr ErrorKind.validationError (some m)
        (some (Thrown.zodErr issues m))
  | Thrown.jsErr m =>
      Thrown.netErr ErrorKind.networkError (some m) (some (Thrown.jsErr m))
  | e => Thrown.netErr ErrorKind.unknownError e.messageProp (some e)

/-- Customer record as decoded by `CustomerSchema` (customer.schema.ts);
the `created_at`/`updated_at` `Date` values are embedded by their source
strings. -/
structure Customer where
  id : Int
  name : String
  dob : String
  email : String
  contact : String
  created_at : String
  updated_at : String
deriving DecidableEq

/-- Body wrapper decoded by `ApiResponseSchema`: a `data` field holding the
payload. -/
structure ApiResponse (α : Type) where
  data : α
deriving DecidableEq

/-- Listing payload decoded by `CustomerListingSchema`. -/
structure CustomerListingData where
  records : List Customer
  total_pages : Int
deriving DecidableEq

/-- What `response.json()` followed by `schema.parseAsync` yields on an ok
response body: the decoded value, a `ZodError` rejection (with the issue
messages and the `ZodError`'s `message` string), or a JSON `SyntaxError`
rejection (a generic `Error`). -/
inductive BodyParse (α : Type) where
  | parsed (v : α)
  | zodFailure (issues : List String) (message : String)
  | jsonFailure (message : String)

/-- Outcome of one HTTP exchange for the operations that validate the body
with a zod schema: either the fetch promise rejects with a connectivity
`Error`, or a response arrives with its `ok` flag, its body text, and the
body-parse outcome. -/
inductive Transport (α : Type) where
  | networkFailure (message : String)
  | response (ok : Bool) (bodyText : String) (body : BodyParse α)

/-- Body outcome for `registerCustomer`, whose ok path runs
`response.json()` with no schema validation. -/
inductive JsonParse (α : Type) where
  | parsed (v : α)
  | jsonFailure (message : String)

/-- Transport outcome for `registerCustomer`. -/
inductive RegisterTransport (α : Type) where
  | networkFailure (message : String)
  | response (ok : Bool) (bodyText : String) (body : JsonParse α)

/-- Transport outcome for `deleteCustomer`, whose ok path resolves with no
body handling at all. -/
inductive DeleteTransport where
  | networkFailure (message : String)
  | response (ok : Bool) (bodyText : String)

/-- `fetchCustomerListing` (pages/listing.tsx): on a non-ok response, throw
a server-error `NetError` carrying the raw body text; on an ok response,
decode with `CustomerListingSchema`; route every rejection through the
catch handler. -/
def fetchCustomerListing
    (t : Transport (ApiResponse CustomerListingData)) :
    Except Thrown (ApiResponse CustomerListingData) :=
  match t with
  | Transport.networkFailure m => Except.error (classifyError (Thrown.jsErr m))
  | Transport.response ok bodyText body =>
      if ok then
        match body with
        | BodyParse.parsed v => Except.ok v
        | BodyParse.zodFailure issues m =>
            Except.error (classifyError (Thrown.zodErr issues m))
        | BodyParse.jsonFailure m =>
            Except.error (classifyError (Thrown.jsErr m))
      else
        Except.error (classifyError
          (Thrown.netErr ErrorKind.serverError (some bodyText) none))

/-- `fetchCustomer` (pages/manage-customer.tsx): same pipeline with
`GetCustomerSchema`. -/
def fetchCustomer (t : Transport (ApiResponse Customer)) :
    Except Thrown (ApiResponse Customer) :=
  match t with
  | Transport.networkFailure m => Except.error (classifyError (Thrown.jsErr m))
  | Transport.response ok bodyText body =>
      if ok then
        match body with
        | BodyParse.parsed v => Except.ok v
        | BodyParse.zodFailure issues m =>
            Except.error (classifyError (Thrown.zodErr issues m))
        | BodyParse.jsonFailure m =>
            Except.error (classifyError (Thrown.jsErr m))
      else
        Except.error (classifyError
          (Thrown.netErr ErrorKind.serverError (some bodyText) none))

/-- `updateCustomer` (pages/manage-customer.tsx): PUT, then the same
response pipeline with `GetCustomerSchema`; the request body does not
influence the response handling and is abstracted into the transport
outcome. -/
def updateCustomer (t : Transport (ApiResponse Customer)) :
    Except Thrown (ApiResponse Customer) :=
  match t with
  | Transport.networkFailure m => Except.error (classifyError (Thrown.jsErr m))
  | Transport.response ok bodyText body =>
      if ok then
        match body with
        | BodyParse.parsed v => Except.ok v
        | BodyParse.zodFailure issues m =>
            Except.error (classifyError (Thrown.zodErr issues m))
        | BodyParse.jsonFailure m =>
            Except.error (classifyError (Thrown.jsErr m))
      else
        Except.error (classifyError
          (Thrown.netErr ErrorKind.serverError (some bodyText) none))

/-- `registerCustomer` (pages/register.tsx): POST, then `response.json()`
with no schema validation on the ok path; rejections go through the same
catch handler. -/
def registerCustomer {α : Type} (t : RegisterTransport α) : Except Thrown α :=
  match t with
  | RegisterTransport.networkFailure m =>
      Except.error (classifyError (Thrown.jsErr m))
  | RegisterTransport.response ok bodyText body =>
      if ok then
        match body with
        | JsonParse.parsed v => Except.ok v
        | JsonParse.jsonFailure m =>
            Except.error (classifyError (Thrown.jsErr m))
      else
        Except.error (classifyError
          (Thrown.netErr ErrorKind.serverError (some bodyText) none))

/-- `deleteCustomer` (pages/listing.tsx): DELETE, resolving with no value on
an ok response; rejections go through the same catch handler. -/
def deleteCustomer (t : DeleteTransport) : Except Thrown Unit :=
  match t with
  | DeleteTransport.networkFailure m =>
      Except.error (classifyError (Thrown.jsErr m))
  | DeleteTransport.response ok bodyText =>
      if ok then
        Except.ok ()
      else
        Except.error (classifyError
          (Thrown.netErr ErrorKind.serverError (some bodyText) none))

/-- Payload shape of `RegisterCustomerSchema` (pages/register.tsx). -/
structure RegisterPayload where
  name : String
  email : String
  contact : String
  dob : String
deriving DecidableEq

/-- Payload shape of `UpdateCustomerSchema` (pages/manage-customer.tsx),
the pick of name/email/contact/dob from `CustomerSchema`. -/
structure UpdatePayload where
  name : String
  email : String
  contact : String
  dob : String
deriving DecidableEq

/-- Observable outcome of one form submission: blocked with an alert shown
to the user, or the network mutation invoked with the validated payload. -/
inductive SubmitOutcome (π : Type) where
  | blocked (alertText : String)
  | mutated (payload : π)
deriving DecidableEq

/-- Submit handler of the register form (pages/register.tsx): `safeParse`
the collected payload; on failure, alert with the comma-joined issue
messages followed by the fixed instruction line of the template literal,
and return without mutating; on success, invoke the mutation. The
`safeParse` outcome is the handler's input; the failure branch carries the
mapped issue messages. -/
def handleRegisterSubmit (result : Except (List String) RegisterPayload) :
    SubmitOutcome RegisterPayload :=
  match result with
  | Except.error errs =>
      SubmitOutcome.blocked (String.intercalate ", " errs
        ++ "\nPlease correct the errors and try again.")
  | Except.ok d => SubmitOutcome.mutated d

/-- Submit handler of the update form (pages/manage-customer.tsx), same
structure as the register form's. -/
def handleUpdateSubmit (result : Except (List String) UpdatePayload) :
    SubmitOutcome UpdatePayload :=
  match result with
  | Except.error errs =>
      SubmitOutcome.blocked (String.intercalate ", " errs
        ++ "\nPlease correct the errors and try again.")
  | Except.ok d => SubmitOutcome.mutated d

/-- Client-side state of the `Listing` controller: the `page` and `limit`
`useState` cells, plus the log of query keys passed to
`invalidateQueries`. -/
structure ListingState where
  page : Int
  limit : Int
  invalidated : List (Int × Int)
deriving DecidableEq

/-- The `onSettled` callback of the delete-customer mutation
(pages/listing.tsx): run on success and on failure alike, it performs
`setPage(1)` and invalidates the listing query keyed by page 1 and the
current limit. -/
def onDeleteSettled (result : Except Thrown Unit) (s : ListingState) :
    ListingState :=
  match result with
  | _ => { s with page := 1, invalidated := (1, s.limit) :: s.invalidated }

/-- State of the listing view together with the keyed query cache of the
data-fetching collaborator: the current `page`/`limit` key and the cache of
results stored under the key they were requested with. -/
structure QueryCacheState (α : Type) where
  page : Int
  limit : Int
  cache : List ((Int × Int) × α)

/-- Data rendered by the `Listing` view: `useQuery` keyed by the current
page and limit returns the cache entry for exactly that key
(pages/listing.tsx declares the query key from the current page and
limit). -/
def visibleData {α : Type} (s : QueryCacheState α) : Option α :=
  (s.cache.find? (fun kv => kv.1 == (s.page, s.limit))).map (fun kv => kv.2)

/-- Modelled from the spec: the commit step of the external data-fetching
collaborator (react-query), which is not part of this repository's source.
Per the spec's ordering guarantee, a resolving fetch is committed under the
request key it was started with, via a request-key comparison before the
result reaches visible state; the current page/limit key is untouched. -/
def commitResult {α : Type} (key : Int × Int) (v : α) (s : QueryCacheState α) :
    QueryCacheState α :=
  { s with cache := (key, v) :: s.cache }

/-- `setPage` of the `Listing` controller: the user navigates to another
page; only the current key changes. -/
def setPage {α : Type} (p : Int) (s : QueryCacheState α) : QueryCacheState α :=
  { s with page := p }

/-- Concrete `ZodError.message` value as the zod dependency produces it for
the two issues with messages "email invalid" and "name required": zod
defines the `message` getter as the JSON serialization of the issue list
with two-space indentation, not as a join of the issue messages. -/
def zodIssuesMessage : String :=
  "[\n  \x7b\n    \"code\": \"invalid_string\",\n    \"validation\": \"email\",\n    \"message\": \"email invalid\",\n    \"path\": [\n      \"email\"\n    ]\n  \x7d,\n  \x7b\n    \"code\": \"invalid_type\",\n    \"expected\": \"string\",\n    \"received\": \"undefined\",\n    \"message\": \"name required\",\n    \"path\": [\n      \"name\"\n    ]\n  \x7d\n]"

/-- Membership in the run `s, s+1, ..., e` produced by `Array.from`. -/
lemma mem_rangeRun {s e x : Int} :
    x ∈ (List.range (e - s + 1).toNat).map (fun (i : Nat) => s + (i : Int)) ↔
      s ≤ x ∧ x ≤ e := by
  constructor
  · intro hx
    rcases List.mem_map.mp hx with ⟨i, hi, rfl⟩
    have h := List.mem_range.mp hi
    omega
  · intro hx
    exact List.mem_map.mpr ⟨(x - s).toNat, List.mem_range.mpr (by omega), by omega⟩

lemma mem_getPages {currentPage totalPages maxVisiblePages x : Int} :
    x ∈ getPages currentPage totalPages maxVisiblePages ↔
      startPage currentPage totalPages maxVisiblePages ≤ x ∧
      x ≤ endPage currentPage totalPages maxVisiblePages := by
  unfold getPages
  exact mem_rangeRun

lemma length_getPages (currentPage totalPages maxVisiblePages : Int) :
    (getPages currentPage totalPages maxVisiblePages).length =
      (endPage currentPage totalPages maxVisiblePages
        - startPage currentPage totalPages maxVisiblePages + 1).toNat := by
  unfold getPages
  rw [List.length_map, List.length_range]

lemma get_getPages (currentPage totalPages maxVisiblePages : Int) (i : Nat)
    (hi : i < (getPages currentPage totalPages maxVisiblePages).length) :
    (getPages currentPage totalPages maxVisiblePages).get ⟨i, hi⟩
      = startPage currentPage totalPages maxVisiblePages + (i : Int) := by
  simp [getPages, List.getElem_map, List.getElem_range]

/-- C1: for `totalPages ≥ 0`, any `currentPage`, and `maxVisiblePages = 5`,
every element of `getPages currentPage totalPages 5` lies in
`[1, totalPages]`, and the window is empty exactly when `totalPages = 0`. -/
theorem getPages_bounds_and_empty (currentPage totalPages : Int)
    (h : 0 ≤ totalPages) :
    (∀ x ∈ getPages currentPage totalPages 5, 1 ≤ x ∧ x ≤ totalPages) ∧
    (getPages currentPage totalPages 5 = [] ↔ totalPages = 0) := by
  constructor
  · intro x hx
    rw [mem_getPages] at hx
    unfold endPage startPage halfWay totalPageNumbers at hx
    omega
  · rw [List.length_eq_zero.symm, length_getPages]
    unfold endPage startPage halfWay totalPageNumbers
    omega

/-- Witness for C1 at `currentPage = 3`, `totalPages = 10`. -/
theorem getPages_bounds_and_empty_witness :
    (∀ x ∈ getPages 3 10 5, 1 ≤ x ∧ x ≤ 10) ∧
    (getPages 3 10 5 = [] ↔ (10 : Int) = 0) :=
  getPages_bounds_and_empty 3 10 (by decide)

/-- C2: for `totalPages > 0`, `maxVisiblePages ≥ 1`, and a valid
`currentPage` in `[1, totalPages]`, the window has length exactly
`min maxVisiblePages totalPages` and is the contiguous ascending run from
its first element: element `i` equals the first element plus `i`. -/
theorem getPages_length_and_contiguous
    (currentPage totalPages maxVisiblePages : Int)
    (h1 : 0 < totalPages) (h2 : 1 ≤ maxVisiblePages)
    (h3 : 1 ≤ currentPage) (h4 : currentPage ≤ totalPages) :
    ((getPages currentPage totalPages maxVisiblePages).length : Int)
        = min maxVisiblePages totalPages ∧
    ∀ (i : Nat) (hi : i < (getPages currentPage totalPages maxVisiblePages).length)
      (h0 : 0 < (getPages currentPage totalPages maxVisiblePages).length),
      (getPages currentPage totalPages maxVisiblePages).get ⟨i, hi⟩
        = (getPages currentPage totalPages maxVisiblePages).get ⟨0, h0⟩ + (i : Int) := by
  constructor
  · rw [length_getPages]
    unfold endPage startPage halfWay totalPageNumbers
    omega
  · intro i hi h0
    rw [get_getPages, get_getPages]
    simp

/-- Witness for C2 at `currentPage = 5`, `totalPages = 10`,
`maxVisiblePages = 5`. -/
theorem getPages_length_and_contiguous_witness :
    ((getPages 5 10 5).length : Int) = min 5 10 ∧
    ∀ (i : Nat) (hi : i < (getPages 5 10 5).length)
      (h0 : 0 < (getPages 5 10 5).length),
      (getPages 5 10 5).get ⟨i, hi⟩ = (getPages 5 10 5).get ⟨0, h0⟩ + (i : Int) :=
  getPages_length_and_contiguous 5 10 5 (by decide) (by decide) (by decide)
    (by decide)

/-- C3: when `totalPages ≥ maxVisiblePages ≥ 1` and
`1 ≤ currentPage ≤ totalPages`, the window contains `currentPage`. -/
theorem getPages_contains_current
    (currentPage totalPages maxVisiblePages : Int)
    (h1 : 1 ≤ maxVisiblePages) (h2 : maxVisiblePages ≤ totalPages)
    (h3 : 1 ≤ currentPage) (h4 : currentPage ≤ totalPages) :
    currentPage ∈ getPages currentPage totalPages maxVisiblePages := by
  rw [mem_getPages]
  unfold endPage startPage halfWay totalPageNumbers
  omega

/-- Witness for C3 at the right boundary `currentPage = totalPages = 10`,
`maxVisiblePages = 5`. -/
theorem getPages_contains_current_witness :
    (10 : Int) ∈ getPages 10 10 5 :=
  getPages_contains_current 10 10 5 (by decide) (by decide) (by decide)
    (by decide)

example : getPages 1 10 5 = [1, 2, 3, 4, 5] := by decide
example : getPages 10 10 5 = [6, 7, 8, 9, 10] := by decide
example : getPages 5 10 5 = [3, 4, 5, 6, 7] := by decide
example : getPages 3 2 5 = [1, 2] := by decide

/-- C4: every request operation maps a response with a non-success status to
a server-error `NetError` whose message is exactly the raw response body
text (and no wrapped cause), with no re-parsing of the body. -/
theorem serverError_rawBody (bodyText : String) :
    (∀ body, fetchCustomerListing (Transport.response false bodyText body)
      = Except.error (Thrown.netErr ErrorKind.serverError (some bodyText) none))
    ∧ (∀ body, fetchCustomer (Transport.response false bodyText body)
      = Except.error (Thrown.netErr ErrorKind.serverError (some bodyText) none))
    ∧ (∀ body, updateCustomer (Transport.response false bodyText body)
      = Except.error (Thrown.netErr ErrorKind.serverError (some bodyText) none))
    ∧ (∀ (α : Type) (body : JsonParse α),
        registerCustomer (RegisterTransport.response false bodyText body)
          = Except.error (Thrown.netErr ErrorKind.serverError (some bodyText) none))
    ∧ deleteCustomer (DeleteTransport.response false bodyText)
      = Except.error (Thrown.netErr ErrorKind.serverError (some bodyText) none) :=
  ⟨fun _ => rfl, fun _ => rfl, fun _ => rfl, fun _ _ => rfl, rfl⟩

/-- C5 (amended): a response body failing schema validation classifies as a
validation-error `NetError` whose wrapped cause is the original `ZodError`
and whose message is the `ZodError`'s own `message` property — not the
comma-separated join of the individual field messages. -/
theorem validationError_classification (issues : List String) (m : String) :
    classifyError (Thrown.zodErr issues m)
      = Thrown.netErr ErrorKind.validationError (some m)
          (some (Thrown.zodErr issues m)) :=
  rfl

/-- C5 counterexample: for the field errors "email invalid" and
"name required", the classifier's message is the `ZodError`'s JSON-dump
`message` (here `zodIssuesMessage`), which differs from the comma-joined
string "email invalid, name required". -/
theorem validationError_not_comma_joined :
    classifyError (Thrown.zodErr ["email invalid", "name required"] zodIssuesMessage)
      = Thrown.netErr ErrorKind.validationError (some zodIssuesMessage)
          (some (Thrown.zodErr ["email invalid", "name required"] zodIssuesMessage))
    ∧ zodIssuesMessage ≠ "email invalid, name required" :=
  ⟨rfl, by decide⟩

/-- C6: the catch-and-classify step shared by every request operation is an
idempotent pass-through on already-classified errors: a `NetError` input is
rethrown unchanged — same kind, same message, same cause, no second layer
of wrapping. -/
theorem classifyError_passthrough (k : ErrorKind) (m : Option String)
    (i : Option Thrown) :
    classifyError (Thrown.netErr k m i) = Thrown.netErr k m i :=
  rfl

/-- C7 (amended): a thrown value that is neither a `NetError`, nor a
`ZodError`, nor an `Error` classifies as unknown-error with the raw value
as cause, but its message is the thrown value's `message` property — which
is `undefined` (none) for plain strings and numbers, not a stringification
of the value. -/
theorem unknownError_classification :
    (∀ s, classifyError (Thrown.strVal s)
      = Thrown.netErr ErrorKind.unknownError none (some (Thrown.strVal s)))
    ∧ (∀ n, classifyError (Thrown.numVal n)
      = Thrown.netErr ErrorKind.unknownError none (some (Thrown.numVal n))) :=
  ⟨fun _ => rfl, fun _ => rfl⟩

/-- C7 counterexample: throwing the plain string "boom" yields an
unknown-error `NetError` whose message is `none` (undefined), which is not
the usable string message "boom" the claim promises. -/
theorem unknownError_no_stringification :
    classifyError (Thrown.strVal "boom")
      = Thrown.netErr ErrorKind.unknownError none (some (Thrown.strVal "boom"))
    ∧ Thrown.netErr ErrorKind.unknownError none (some (Thrown.strVal "boom"))
      ≠ Thrown.netErr ErrorKind.unknownError (some "boom")
          (some (Thrown.strVal "boom")) :=
  ⟨rfl, by simp⟩

/-- C8 (amended): a form submission whose collected payload fails
`safeParse` is blocked with no mutation, and the alert text is the
comma-separated join of the field error messages followed by the fixed
instruction line; the mutation is invoked exactly when validation
succeeds. -/
theorem formValidation_blocks (errs : List String) :
    handleRegisterSubmit (Except.error errs)
      = SubmitOutcome.blocked (String.intercalate ", " errs
          ++ "\nPlease correct the errors and try again.")
    ∧ handleUpdateSubmit (Except.error errs)
      = SubmitOutcome.blocked (String.intercalate ", " errs
          ++ "\nPlease correct the errors and try again.")
    ∧ (∀ p, handleRegisterSubmit (Except.ok p) = SubmitOutcome.mutated p)
    ∧ (∀ p, handleUpdateSubmit (Except.ok p) = SubmitOutcome.mutated p) :=
  ⟨rfl, rfl, fun _ => rfl, fun _ => rfl⟩

/-- C8 counterexample: for the single field error "email invalid" the shown
alert text carries the fixed instruction suffix, so it is not equal to the
comma-joined field messages alone. -/
theorem formValidation_alert_not_join_alone :
    handleRegisterSubmit (Except.error ["email invalid"])
      = SubmitOutcome.blocked
          "email invalid\nPlease correct the errors and try again."
    ∧ ("email invalid\nPlease correct the errors and try again." : String)
      ≠ "email invalid" :=
  ⟨rfl, by decide⟩

/-- C9: whatever the delete mutation settles with — success or failure —
the `onSettled` callback resets the current page to 1, keeps the limit, and
invalidates the listing query keyed by page 1 and the current limit. -/
theorem deleteSettled_resets_page (r : Except Thrown Unit) (s : ListingState) :
    (onDeleteSettled r s).page = 1
    ∧ (onDeleteSettled r s).limit = s.limit
    ∧ (1, s.limit) ∈ (onDeleteSettled r s).invalidated :=
  ⟨rfl, rfl, List.mem_cons_self _ _⟩

/-- C10: a resolving fetch is committed to visible state only under its own
request key: when its key differs from the current page/limit key — as when
a page-1 fetch resolves after the user has moved to page 2 — the visible
data is unchanged, while a result for the current key becomes visible. -/
theorem staleResult_never_overwrites {α : Type} (key : Int × Int) (v : α)
    (s : QueryCacheState α) (h : key ≠ (s.page, s.limit)) :
    visibleData (commitResult key v s) = visibleData s
    ∧ visibleData (commitResult (s.page, s.limit) v s) = some v := by
  constructor
  · unfold visibleData commitResult
    rw [List.find?_cons_of_neg]
    simp [h]
  · unfold visibleData commitResult
    rw [List.find?_cons_of_pos]
    · rfl
    · simp

/-- Witness for C10: the listing shows page 2 (limit 5) with an empty
cache; the stale page-1 result arriving afterwards leaves the visible data
unchanged, while a page-2 result becomes visible. -/
theorem staleResult_never_overwrites_witness :
    ((1, 5) : Int × Int) ≠
        ((QueryCacheState.mk 2 5 ([] : List ((Int × Int) × Int))).page,
         (QueryCacheState.mk 2 5 ([] : List ((Int × Int) × Int))).limit)
    ∧ (visibleData (commitResult (1, 5) (7 : Int)
          (QueryCacheState.mk 2 5 ([] : List ((Int × Int) × Int))))
        = visibleData (QueryCacheState.mk 2 5 ([] : List ((Int × Int) × Int)))
      ∧ visibleData (commitResult
            ((QueryCacheState.mk 2 5 ([] : List ((Int × Int) × Int))).page,
             (QueryCacheState.mk 2 5 ([] : List ((Int × Int) × Int))).limit)
            (7 : Int)
            (QueryCacheState.mk 2 5 ([] : List ((Int × Int) × Int))))
          = some (7 : Int)) :=
  ⟨by decide, staleResult_never_overwrites (1, 5) (7 : Int)
    (QueryCacheState.mk 2 5 ([] : List ((Int × Int) × Int))) (by decide)⟩
